import Mathlib

/-!
Verification of the prompt concurrency and lifecycle controller of the
opencode-telegram-bridge repository.

The development shallowly embeds the relevant source modules:

* src/prompt-guard.ts — the per-chat in-flight guard (Guard),
* src/bot.ts          — the orchestrator (runPrompt, question registry, handlers),
* src/telegram.ts     — splitTelegramMessage,
* src/opencode.ts     — createSessionStore (session ownership index),
* src/bot-logic.ts    — callback parsing and authorization.

JavaScript Map objects are embedded as association lists with
lookup/insert/erase helpers (iteration order is never observed by the
embedded code, only lookup results). AbortController identity is embedded
as a natural-number token; calling abort() on a controller is recorded in
an aborted-token list. setTimeout handles are natural numbers kept in a
list of pending timers; clearTimeout removes the handle, and a pending
timer can fire at most once.
-/

set_option autoImplicit false

namespace Bridge

/-- Lookup in an association list, mirroring JavaScript Map.get. -/
def alookup {α β : Type} [DecidableEq α] (l : List (α × β)) (k : α) : Option β :=
  (l.find? (fun p => decide (p.1 = k))).map (fun p => p.2)

/-- Remove a key, mirroring JavaScript Map.delete. -/
def aerase {α β : Type} [DecidableEq α] (l : List (α × β)) (k : α) : List (α × β) :=
  l.filter (fun p => decide (p.1 ≠ k))

/-- Insert or overwrite a key, mirroring JavaScript Map.set
(iteration order is not preserved, but the embedded code only observes lookups). -/
def ainsert {α β : Type} [DecidableEq α] (l : List (α × β)) (k : α) (v : β) :
    List (α × β) :=
  (k, v) :: aerase l k

/-! ## Guard model (src/prompt-guard.ts)

createPromptGuard keeps a Map inFlight from chatId to
{abortController, timeoutId, replyToMessageId, sessionId}.  The
AbortController is embedded as a token (Nat); abort() on it adds the token
to an aborted list.  The scheduled setTimeout callback is embedded as a
GuardTimer value (handle plus the chatId and token it closed over), pending
until cleared or fired. -/

structure GuardEntry where
  token : Nat
  timeoutId : Nat
  replyToMessageId : Option Nat
  sessionId : Option String
deriving DecidableEq, Repr

structure GuardTimer where
  timeoutId : Nat
  chatId : Int
  token : Nat
deriving DecidableEq, Repr

structure GuardState where
  inFlight : List (Int × GuardEntry)
  timers : List GuardTimer
  aborted : List Nat
  nextId : Nat
deriving DecidableEq, Repr

def GuardState.empty : GuardState := ⟨[], [], [], 0⟩

/-- Argument of one onTimeout invocation as the spec describes it.  The
guard source (prompt-guard.ts line 63) calls the callback as onTimeout()
with no argument, which is recorded as arg = none. -/
structure TimeoutPayload where
  replyToMessageId : Option Nat
  sessionId : Option String
deriving DecidableEq, Repr

/-- One recorded invocation of the onTimeout callback registered for a chat. -/
structure TimeoutCall where
  chatId : Int
  arg : Option TimeoutPayload
deriving DecidableEq, Repr

/-- tryStart (prompt-guard.ts lines 36-73): null when an entry exists,
otherwise allocate a fresh AbortController (token), schedule the timeout,
store the entry and return the controller. -/
def tryStart (s : GuardState) (chatId : Int) (replyToMessageId : Option Nat) :
    Option Nat × GuardState :=
  match alookup s.inFlight chatId with
  | some _ => (none, s)
  | none =>
    let token := s.nextId
    let tid := s.nextId + 1
    let entry : GuardEntry :=
      { token := token, timeoutId := tid
        replyToMessageId := replyToMessageId, sessionId := none }
    (some token,
      { s with
        inFlight := ainsert s.inFlight chatId entry
        timers := ⟨tid, chatId, token⟩ :: s.timers
        nextId := s.nextId + 2 })

/-- clearTimeout on a stored timeout handle. -/
def clearTimer (s : GuardState) (tid : Nat) : GuardState :=
  { s with timers := s.timers.filter (fun t => decide (t.timeoutId ≠ tid)) }

/-- The setTimeout callback scheduled by tryStart (prompt-guard.ts lines
51-64): runs only while the timer is pending (a cleared timer never runs,
and a timer runs at most once); it re-reads the entry and does nothing
unless the stored AbortController is the one the callback closed over;
otherwise it deletes the entry, aborts the controller and invokes
onTimeout() — with no argument. -/
def fireTimer (s : GuardState) (t : GuardTimer) : GuardState × List TimeoutCall :=
  if t ∈ s.timers then
    match alookup s.inFlight t.chatId with
    | none => ({ s with timers := s.timers.filter (fun u => decide (u ≠ t)) }, [])
    | some entry =>
      if entry.token = t.token then
        ({ s with
            timers := s.timers.filter (fun u => decide (u ≠ t))
            inFlight := aerase s.inFlight t.chatId
            aborted := t.token :: s.aborted },
          [{ chatId := t.chatId, arg := none }])
      else ({ s with timers := s.timers.filter (fun u => decide (u ≠ t)) }, [])
  else (s, [])

/-- setSessionId (prompt-guard.ts lines 75-86): records the session id only
when the given controller still matches the live entry. -/
def setSessionId (s : GuardState) (chatId : Int) (token : Nat) (sessionId : String) :
    GuardState :=
  match alookup s.inFlight chatId with
  | none => s
  | some entry =>
    if entry.token = token then
      { s with inFlight := ainsert s.inFlight chatId { entry with sessionId := some sessionId } }
    else s

structure AbortResult where
  abortController : Nat
  replyToMessageId : Option Nat
  sessionId : Option String
deriving DecidableEq, Repr

/-- abort (prompt-guard.ts lines 88-102). -/
def guardAbort (s : GuardState) (chatId : Int) : Option AbortResult × GuardState :=
  match alookup s.inFlight chatId with
  | none => (none, s)
  | some entry =>
    let s1 := clearTimer s entry.timeoutId
    (some ⟨entry.token, entry.replyToMessageId, entry.sessionId⟩,
      { s1 with
        inFlight := aerase s1.inFlight chatId
        aborted := entry.token :: s1.aborted })

/-- finish (prompt-guard.ts lines 104-116). -/
def finish (s : GuardState) (chatId : Int) : GuardState :=
  match alookup s.inFlight chatId with
  | none => s
  | some entry =>
    let s1 := clearTimer s entry.timeoutId
    { s1 with inFlight := aerase s1.inFlight chatId }

def isInFlight (s : GuardState) (chatId : Int) : Bool :=
  (alookup s.inFlight chatId).isSome

/-- All identifiers allocated so far are below the allocation counter; this
holds for every state reachable from GuardState.empty. -/
def GuardWF (s : GuardState) : Prop :=
  (∀ p ∈ s.inFlight, p.2.token < s.nextId ∧ p.2.timeoutId < s.nextId) ∧
    (∀ t ∈ s.timers, t.token < s.nextId) ∧ (∀ tok ∈ s.aborted, tok < s.nextId)

instance (s : GuardState) : Decidable (GuardWF s) := by
  unfold GuardWF; infer_instance

/-- Comparison definition following the spec sentence about the timeout
callback: onTimeout is invoked with the replyAffinity and sessionId
captured at fire time. -/
def specOnTimeoutArgument (e : GuardEntry) : Option TimeoutPayload :=
  some { replyToMessageId := e.replyToMessageId, sessionId := e.sessionId }

/-- Concrete scenario: a prompt started for chat 1 threading to message 200. -/
def demoStart : Option Nat × GuardState := tryStart GuardState.empty 1 (some 200)

/-- The scenario state after the session id has been recorded on the entry. -/
def demoState : GuardState := setSessionId demoStart.2 1 0 "sess-1"

/-- The entry stored for chat 1 in the scenario state. -/
def demoEntry : GuardEntry :=
  { token := 0, timeoutId := 1, replyToMessageId := some 200, sessionId := some "sess-1" }

/-- The timeout scheduled by the scenario tryStart. -/
def demoTimer : GuardTimer := { timeoutId := 1, chatId := 1, token := 0 }

/-! ## Prompt orchestrator model (src/bot.ts, runPrompt lines 580-869)

runPrompt shares a timedOut flag between the timeout callback registered
with the Guard and the background task awaiting the backend prompt call.
JavaScript runs both on one event loop, so each of the two blocks below is
atomic with respect to the other; they are embedded as two functions on the
shared task state, and a schedule is a function composition. -/

structure SentMessage where
  chatId : Int
  replyTo : Option Nat
  text : String
deriving DecidableEq, Repr

/-- Result of the opencode.abortSession attempt made inside the timeout
callback: resolved true, resolved false, or rejected. -/
inductive AbortOutcome
  | abortedOk
  | notAborted
  | threw
deriving DecidableEq, Repr

structure PromptTask where
  timedOut : Bool
  sent : List SentMessage
deriving DecidableEq, Repr

/-- The timeout callback runPrompt registers with the Guard (bot.ts lines
628-703): set timedOut, then send exactly one timeout notification whose
text depends on whether a session id was recorded and on the outcome of the
server-side abort attempt.  (The callback also clears a pending question;
that effect targets the question message and is modelled with the question
registry.) -/
def promptTimeoutCallback (chatId : Int) (payload : TimeoutPayload)
    (outcome : AbortOutcome) (t : PromptTask) : PromptTask :=
  let t1 : PromptTask := { t with timedOut := true }
  match payload.sessionId with
  | none =>
    { t1 with sent := t1.sent ++
        [{ chatId := chatId, replyTo := payload.replyToMessageId,
           text := "OpenCode request timed out. Nothing to abort yet (session not ready). You can send a new message." }] }
  | some _ =>
    match outcome with
    | .abortedOk =>
      { t1 with sent := t1.sent ++
          [{ chatId := chatId, replyTo := payload.replyToMessageId,
             text := "OpenCode request timed out. Server-side prompt aborted. You can send a new message." }] }
    | .notAborted =>
      { t1 with sent := t1.sent ++
          [{ chatId := chatId, replyTo := payload.replyToMessageId,
             text := "OpenCode request timed out. Tried to abort the server-side prompt, but it was not aborted. You can send a new message." }] }
    | .threw =>
      { t1 with sent := t1.sent ++
          [{ chatId := chatId, replyTo := payload.replyToMessageId,
             text := "OpenCode request timed out. Failed to abort the server-side prompt. You can send a new message." }] }

/-- The success continuation of the awaited backend prompt call (bot.ts
lines 795-797): the reply goes out only if the timeout has not fired. -/
def promptResolveSuccess (chatId : Int) (replyToMessageId : Option Nat)
    (replyText : String) (t : PromptTask) : PromptTask :=
  if t.timedOut then t
  else
    { t with sent := t.sent ++
        [{ chatId := chatId, replyTo := replyToMessageId, text := replyText }] }

/-! ## Session ownership store (src/opencode.ts, createSessionStore lines 308-340) -/

structure SessionOwner where
  chatId : Int
  projectDir : String
deriving DecidableEq, Repr

/-- The two Maps of createSessionStore: sessions is keyed by the chat and
project directory (the source builds a composite string key from the pair;
the pair itself is used here), owners by session id. -/
structure SessionStoreState where
  sessions : List ((Int × String) × String)
  owners : List (String × SessionOwner)
deriving DecidableEq, Repr

def SessionStoreState.empty : SessionStoreState := ⟨[], []⟩

def storeGetSessionId (st : SessionStoreState) (chatId : Int) (projectDir : String) :
    Option String :=
  alookup st.sessions (chatId, projectDir)

/-- setSessionId (opencode.ts lines 315-324): when the pair already mapped
to a different session id, delete that id from the owners map; then set
both maps. -/
def storeSetSessionId (st : SessionStoreState) (chatId : Int)
    (projectDir sessionId : String) : SessionStoreState :=
  let key := (chatId, projectDir)
  let owners1 :=
    match alookup st.sessions key with
    | some existing => if existing ≠ sessionId then aerase st.owners existing else st.owners
    | none => st.owners
  { sessions := ainsert st.sessions key sessionId
    owners := ainsert owners1 sessionId { chatId := chatId, projectDir := projectDir } }

/-- clearSession (opencode.ts lines 325-333): returns whether a mapping
was removed. -/
def storeClearSession (st : SessionStoreState) (chatId : Int) (projectDir : String) :
    Bool × SessionStoreState :=
  let key := (chatId, projectDir)
  let owners1 :=
    match alookup st.sessions key with
    | some existing => aerase st.owners existing
    | none => st.owners
  ((alookup st.sessions key).isSome,
    { sessions := aerase st.sessions key, owners := owners1 })

/-- clearAll (opencode.ts lines 334-337). -/
def storeClearAll (_st : SessionStoreState) : SessionStoreState :=
  SessionStoreState.empty

/-- getSessionOwner (opencode.ts line 338). -/
def storeGetSessionOwner (st : SessionStoreState) (sessionId : String) :
    Option SessionOwner :=
  alookup st.owners sessionId

/-- The forward and reverse maps are mutually inverse. -/
def StoreConsistent (st : SessionStoreState) : Prop :=
  (∀ c p sid, alookup st.sessions (c, p) = some sid →
    alookup st.owners sid = some { chatId := c, projectDir := p }) ∧
  (∀ sid c p, alookup st.owners sid = some { chatId := c, projectDir := p } →
    alookup st.sessions (c, p) = some sid)

/-- Concrete run in which one session id is set for two distinct
conversation-project pairs. -/
def clashStore : SessionStoreState :=
  storeSetSessionId (storeSetSessionId SessionStoreState.empty 1 "/a" "s") 2 "/b" "s"

/-! ## Pending question registry (src/bot.ts lines 63-70, 137-138, 159-166,
291-370, 513-557) -/

structure QuestionInfo where
  multiple : Option Bool
  custom : Option Bool
  options : List String
deriving DecidableEq, Repr

structure QuestionRequest where
  id : String
  sessionID : String
  questions : List QuestionInfo
deriving DecidableEq, Repr

structure PendingQuestion where
  chatId : Int
  messageId : Nat
  directory : String
  request : QuestionRequest
  currentIndex : Nat
  answers : List (Option (List String))
deriving DecidableEq, Repr

inductive BackendCall
  | rejectQuestion (requestId : String)
  | replyToQuestion (requestId : String) (answers : List (List String))
deriving DecidableEq, Repr

structure QuestionRegistry where
  pendingQuestions : List (String × PendingQuestion)
  pendingQuestionsByChat : List (Int × String)
deriving DecidableEq, Repr

def QuestionRegistry.empty : QuestionRegistry := ⟨[], []⟩

/-- getPendingQuestionForChat (bot.ts lines 159-166). -/
def getPendingQuestionForChat (reg : QuestionRegistry) (chatId : Int) :
    Option PendingQuestion :=
  match alookup reg.pendingQuestionsByChat chatId with
  | none => none
  | some requestId => alookup reg.pendingQuestions requestId

/-- onQuestionAsked (bot.ts lines 513-557).  sendResult is the message id
obtained from bot.telegram.sendMessage, or none when that call threw (in
which case nothing is registered). -/
def onQuestionAsked (store : SessionStoreState) (reg : QuestionRegistry)
    (request : QuestionRequest) (directory : String) (sendResult : Option Nat) :
    QuestionRegistry × List BackendCall :=
  match storeGetSessionOwner store request.sessionID with
  | none => (reg, [])
  | some owner =>
    match getPendingQuestionForChat reg owner.chatId with
    | some _ => (reg, [.rejectQuestion request.id])
    | none =>
      match sendResult with
      | none => (reg, [])
      | some mid =>
        let pending : PendingQuestion :=
          { chatId := owner.chatId, messageId := mid, directory := directory
            request := request, currentIndex := 0
            answers := List.replicate request.questions.length none }
        ({ pendingQuestions := ainsert reg.pendingQuestions request.id pending
           pendingQuestionsByChat := ainsert reg.pendingQuestionsByChat owner.chatId request.id },
          [])

/-- collectQuestionAnswers (bot.ts lines 333-342): null as soon as some
answer list is missing or empty. -/
def collectQuestionAnswers : List (Option (List String)) → Option (List (List String))
  | [] => some []
  | answer :: rest =>
    match answer with
    | none => none
    | some a =>
      if a.length = 0 then none
      else (collectQuestionAnswers rest).map (fun collected => a :: collected)

/-- deletePendingQuestion (bot.ts lines 325-331). -/
def deletePendingQuestion (reg : QuestionRegistry) (pending : PendingQuestion) :
    QuestionRegistry :=
  let pqs := aerase reg.pendingQuestions pending.request.id
  match alookup reg.pendingQuestionsByChat pending.chatId with
  | some current =>
    if current = pending.request.id then
      { pendingQuestions := pqs
        pendingQuestionsByChat := aerase reg.pendingQuestionsByChat pending.chatId }
    else { pendingQuestions := pqs, pendingQuestionsByChat := reg.pendingQuestionsByChat }
  | none => { pendingQuestions := pqs, pendingQuestionsByChat := reg.pendingQuestionsByChat }

/-- advanceQuestionOrSubmit (bot.ts lines 344-370).  The source tests
isLast as currentIndex greater or equal questions.length minus one; over
the integers this is the negation of currentIndex + 1 less than length,
which is the form used here.  The message edit performed in both branches
goes to the transport, not the backend, and is not part of the returned
backend-call list. -/
def advanceQuestionOrSubmit (reg : QuestionRegistry) (pending : PendingQuestion) :
    Except String (QuestionRegistry × List BackendCall) :=
  if pending.currentIndex + 1 < pending.request.questions.length then
    .ok ({ reg with
            pendingQuestions := ainsert reg.pendingQuestions pending.request.id
              { pending with currentIndex := pending.currentIndex + 1 } },
      [])
  else
    match collectQuestionAnswers pending.answers with
    | none => .error "Missing answers for one or more questions"
    | some answers =>
      .ok (deletePendingQuestion reg pending,
        [.replyToQuestion pending.request.id answers])

/-- Concrete pending question with two answered sub-questions, at the last
index. -/
def demoQuestion : PendingQuestion :=
  { chatId := 1, messageId := 7, directory := "/proj"
    request :=
      { id := "q-two", sessionID := "sess-q"
        questions :=
          [ { multiple := none, custom := none, options := ["A", "B"] },
            { multiple := none, custom := none, options := ["X", "Y"] } ] }
    currentIndex := 1
    answers := [some ["B"], some ["X"]] }

/-- Registry holding the concrete pending question. -/
def demoRegistry : QuestionRegistry :=
  { pendingQuestions := [("q-two", demoQuestion)]
    pendingQuestionsByChat := [(1, "q-two")] }

/-- Store in which chat 1 owns the session of the concrete question. -/
def demoStore : SessionStoreState :=
  storeSetSessionId SessionStoreState.empty 1 "/proj" "sess-q"

/-- A later question request for the same session. -/
def demoSecondRequest : QuestionRequest :=
  { id := "q-three", sessionID := "sess-q"
    questions := [{ multiple := none, custom := none, options := ["C"] }] }

/-! ## Message splitting (src/telegram.ts lines 1-17) -/

def TELEGRAM_MESSAGE_LIMIT : Nat := 4096

/-- The chunking loop of splitTelegramMessage (telegram.ts lines 11-16):
slices of size limit taken at offsets 0, limit, 2*limit, and so on.  With
limit 0 the source loop would not terminate on nonempty input; that case
returns the junk value nil here and is excluded by every theorem below. -/
def chunksLoop (limit : Nat) (text : List Char) : List (List Char) :=
  if limit = 0 then []
  else if text.isEmpty then []
  else text.take limit :: chunksLoop limit (text.drop limit)
termination_by text.length
decreasing_by
  simp only [List.length_drop]
  rename_i hlim hemp
  have h1 : 0 < text.length := by
    cases text with
    | nil => simp at hemp
    | cons a l => simp
  omega

/-- splitTelegramMessage (telegram.ts lines 3-17); strings are embedded as
lists of characters and the default limit is TELEGRAM_MESSAGE_LIMIT. -/
def splitTelegramMessage (text : List Char) (limit : Nat) : List (List Char) :=
  if text.length ≤ limit then [text]
  else chunksLoop limit text

/-! ## Authorization guards on update handlers (src/bot.ts, src/bot-logic.ts)

Every message and command handler starts with the same guard (bot.ts lines
871-877, 880-884, 976-980, 1105-1109, 1173-1177, 1204-1208, 1248-1252,
1288-1292, 1498-1502, 1525-1529, 1583-1587): if the sender is not
authorized, reply Not authorized and return before any other statement.
The handler body after the guard is the parameter rest; effects are data. -/

structure TelegramUser where
  id : Option Int
  username : Option String
deriving DecidableEq, Repr

/-- isAuthorized (bot-logic.ts lines 55-58): strict equality of the
optional user id with the allowed id. -/
def isAuthorized (user : Option TelegramUser) (allowedUserId : Int) : Bool :=
  match user with
  | none => false
  | some u => decide (u.id = some allowedUserId)

inductive Effect
  | reply (text : String)
  | answerCbQuery (text : String)
  | sendMessage (chatId : Int) (text : String)
  | editMessage (chatId : Int) (messageId : Nat) (text : String)
  | backend (call : BackendCall)
  | guardMutation
  | storeMutation
deriving DecidableEq, Repr

/-- Effects that touch the Guard, a registry, a store, or the backend. -/
def stateTouching : Effect → Bool
  | .backend _ => true
  | .guardMutation => true
  | .storeMutation => true
  | _ => false

/-- The shared authorization prefix of every message and command handler. -/
def authGuarded (authorized : Bool) (rest : List Effect) : List Effect :=
  if !authorized then [Effect.reply "Not authorized."] else rest

structure PermissionCallback where
  requestId : List Char
  reply : List Char
deriving DecidableEq, Repr

inductive QuestionAction
  | next
  | cancel
  | option (optionIndex : Nat)
deriving DecidableEq, Repr

structure QuestionCallback where
  requestId : List Char
  action : QuestionAction
deriving DecidableEq, Repr

/-- Number(raw) followed by the Number.isInteger and nonnegativity checks
of bot-logic.ts lines 253-256, for the empty string (which Number coerces
to 0) and decimal digit strings.  Other formats that the Number conversion in the source
accepts (hex or exponent literals, surrounding whitespace) are not
modelled; no theorem below depends on the option index of such data.
Callback data is embedded as a list of characters, like all strings the
transport layer slices apart. -/
def jsNumberAsNonNegInt (s : List Char) : Option Nat :=
  if s = [] then some 0
  else if s.all Char.isDigit then
    some (s.foldl (fun n c => n * 10 + (c.toNat - 48)) 0)
  else none

/-- parsePermissionCallback (bot-logic.ts lines 203-223): the match on a
three-element split embeds the length-3 check and the destructuring. -/
def parsePermissionCallback (data : List Char) : Option PermissionCallback :=
  if !("perm:".toList.isPrefixOf data) then none
  else
    match data.splitOn ':' with
    | [_, requestId, reply] =>
      if requestId = [] then none
      else if reply ≠ "once".toList ∧ reply ≠ "always".toList ∧ reply ≠ "reject".toList
        then none
      else some { requestId := requestId, reply := reply }
    | _ => none

/-- parseQuestionCallback (bot-logic.ts lines 225-263). -/
def parseQuestionCallback (data : List Char) : Option QuestionCallback :=
  if !("q:".toList.isPrefixOf data) then none
  else
    let parts := data.splitOn ':'
    if parts.length < 3 then none
    else
      let requestId := parts.getD 1 []
      let action := parts.getD 2 []
      if requestId = [] ∨ action = [] then none
      else if action = "next".toList then some { requestId := requestId, action := .next }
      else if action = "cancel".toList then
        some { requestId := requestId, action := .cancel }
      else if action = "opt".toList then
        if parts.length ≠ 4 then none
        else
          match jsNumberAsNonNegInt (parts.getD 3 []) with
          | none => none
          | some idx => some { requestId := requestId, action := .option idx }
      else none

/-- The callback_query handler prefix (bot.ts lines 1326-1343): updates
without data or whose data parses as neither a permission nor a question
callback are dropped silently; only then is authorization checked. -/
def callbackDispatch (data : Option (List Char)) (authorized : Bool)
    (rest : List Effect) : List Effect :=
  match data with
  | none => []
  | some d =>
    let permissionParsed := parsePermissionCallback d
    let questionParsed := if permissionParsed.isSome then none else parseQuestionCallback d
    if permissionParsed.isNone && questionParsed.isNone then []
    else if !authorized then [Effect.answerCbQuery "Not authorized."]
    else rest

/-! ## Theorems: association-list laws -/

theorem alookup_nil {α β : Type} [DecidableEq α] (k : α) :
    alookup ([] : List (α × β)) k = none := rfl

theorem alookup_cons {α β : Type} [DecidableEq α] (p : α × β) (l : List (α × β)) (k : α) :
    alookup (p :: l) k = if p.1 = k then some p.2 else alookup l k := by
  by_cases h : p.1 = k <;> simp [alookup, List.find?, h]

theorem aerase_cons {α β : Type} [DecidableEq α] (p : α × β) (l : List (α × β)) (k : α) :
    aerase (p :: l) k = if p.1 = k then aerase l k else p :: aerase l k := by
  by_cases h : p.1 = k <;> simp [aerase, List.filter_cons, h]

theorem alookup_aerase_self {α β : Type} [DecidableEq α] (l : List (α × β)) (k : α) :
    alookup (aerase l k) k = none := by
  induction l with
  | nil => rfl
  | cons p l ih =>
    rw [aerase_cons]
    by_cases h : p.1 = k
    · rw [if_pos h]; exact ih
    · rw [if_neg h, alookup_cons, if_neg h]; exact ih

theorem alookup_aerase_ne {α β : Type} [DecidableEq α] (l : List (α × β)) (k k2 : α)
    (h : k ≠ k2) : alookup (aerase l k) k2 = alookup l k2 := by
  induction l with
  | nil => rfl
  | cons p l ih =>
    rw [aerase_cons]
    by_cases hp : p.1 = k
    · have hpk : p.1 ≠ k2 := by rw [hp]; exact h
      rw [if_pos hp, alookup_cons, if_neg hpk]; exact ih
    · rw [if_neg hp, alookup_cons, alookup_cons]
      by_cases hq : p.1 = k2
      · rw [if_pos hq, if_pos hq]
      · rw [if_neg hq, if_neg hq]; exact ih

theorem alookup_ainsert_self {α β : Type} [DecidableEq α] (l : List (α × β)) (k : α) (v : β) :
    alookup (ainsert l k v) k = some v := by
  simp [ainsert, alookup_cons]

theorem alookup_ainsert_ne {α β : Type} [DecidableEq α] (l : List (α × β)) (k k2 : α) (v : β)
    (h : k ≠ k2) : alookup (ainsert l k v) k2 = alookup l k2 := by
  simp [ainsert, alookup_cons, h, alookup_aerase_ne l k k2 h]

/-! ## Theorems: Guard helper lemmas -/

theorem fireTimer_events_of_no_entry (s : GuardState) (t : GuardTimer)
    (h : alookup s.inFlight t.chatId = none) : (fireTimer s t).2 = [] := by
  by_cases ht : t ∈ s.timers <;> simp [fireTimer, ht, h]

theorem fireTimer_of_not_pending (s : GuardState) (t : GuardTimer)
    (h : t ∉ s.timers) : fireTimer s t = (s, []) := by
  simp [fireTimer, h]

theorem clearTimer_inFlight (s : GuardState) (tid : Nat) :
    (clearTimer s tid).inFlight = s.inFlight := rfl

theorem finish_lookup_self (s : GuardState) (c : Int) :
    alookup (finish s c).inFlight c = none := by
  unfold finish
  cases h : alookup s.inFlight c with
  | none => simpa using h
  | some e => simp [clearTimer, alookup_aerase_self]

theorem finish_nextId (s : GuardState) (c : Int) : (finish s c).nextId = s.nextId := by
  unfold finish
  cases h : alookup s.inFlight c <;> simp [clearTimer]

theorem abort_lookup_self (s : GuardState) (c : Int) :
    alookup (guardAbort s c).2.inFlight c = none := by
  unfold guardAbort
  cases h : alookup s.inFlight c with
  | none => simpa using h
  | some e => simp [clearTimer, alookup_aerase_self]

theorem tryStart_of_none (s : GuardState) (c : Int) (r : Option Nat)
    (h : alookup s.inFlight c = none) :
    (tryStart s c r).1 = some s.nextId ∧
      alookup (tryStart s c r).2.inFlight c =
        some { token := s.nextId, timeoutId := s.nextId + 1
               replyToMessageId := r, sessionId := none } := by
  simp [tryStart, h, alookup_ainsert_self]

/-- C1: a Guard timeout callback has an effect at most once and only while
the stored entry still holds the token it closed over.  When it does fire it
removes the entry, aborts the token, and invokes onTimeout exactly once;
after finish, after abort, or after the entry is replaced by a later
tryStart for the same chat, the stale timer produces no onTimeout call. -/
theorem guard_timeout_exactly_once_stale_safe
    (s : GuardState) (c : Int) (e : GuardEntry) (t : GuardTimer) (r : Option Nat)
    (hc : t.chatId = c) (he : alookup s.inFlight c = some e) :
    (t ∈ s.timers → t.token = e.token →
      (fireTimer s t).2 = [{ chatId := c, arg := none }] ∧
      alookup (fireTimer s t).1.inFlight c = none ∧
      e.token ∈ (fireTimer s t).1.aborted ∧
      (fireTimer (fireTimer s t).1 t).2 = []) ∧
    (t.token ≠ e.token → (fireTimer s t).2 = []) ∧
    (fireTimer (finish s c) t).2 = [] ∧
    (fireTimer (guardAbort s c).2 t).2 = [] ∧
    (GuardWF s → t ∈ s.timers → (fireTimer (tryStart (finish s c) c r).2 t).2 = []) := by
  subst hc
  refine ⟨?_, ?_, ?_, ?_, ?_⟩
  · intro ht htok
    have hfire :
        fireTimer s t =
          ({ s with
              timers := s.timers.filter (fun u => decide (u ≠ t))
              inFlight := aerase s.inFlight t.chatId
              aborted := t.token :: s.aborted },
            [{ chatId := t.chatId, arg := none }]) := by
      simp [fireTimer, ht, he, htok]
    refine ⟨by rw [hfire], ?_, ?_, ?_⟩
    · rw [hfire]; exact alookup_aerase_self _ _
    · rw [hfire]; simp [htok]
    · apply fireTimer_events_of_no_entry
      rw [hfire]; exact alookup_aerase_self _ _
  · intro hne
    have hne2 : e.token ≠ t.token := fun h => hne h.symm
    by_cases ht : t ∈ s.timers
    · simp [fireTimer, ht, he, hne2]
    · simp [fireTimer, ht]
  · exact fireTimer_events_of_no_entry _ _ (finish_lookup_self s t.chatId)
  · exact fireTimer_events_of_no_entry _ _ (abort_lookup_self s t.chatId)
  · intro hwf ht
    have hlt : t.token < s.nextId := hwf.2.1 t ht
    have hfin : alookup (finish s t.chatId).inFlight t.chatId = none :=
      finish_lookup_self s t.chatId
    have hnew := (tryStart_of_none (finish s t.chatId) t.chatId r hfin).2
    rw [finish_nextId] at hnew
    by_cases ht2 : t ∈ (tryStart (finish s t.chatId) t.chatId r).2.timers
    · have hne : s.nextId ≠ t.token := fun h => absurd h.symm (Nat.ne_of_lt hlt)
      simp [fireTimer, ht2, hnew, hne]
    · simp [fireTimer, ht2]

/-- C2: tryStart returns a fresh token exactly when no entry exists for the
chat, and returns null while one exists; removal of the entry by finish,
abort, or a fired timeout lets the next tryStart succeed again. -/
theorem tryStart_mutual_exclusion
    (s : GuardState) (c : Int) (r r2 : Option Nat) :
    ((alookup s.inFlight c).isSome → tryStart s c r = (none, s)) ∧
    (alookup s.inFlight c = none →
      (tryStart s c r).1 = some s.nextId ∧
      isInFlight (tryStart s c r).2 c = true ∧
      (tryStart (tryStart s c r).2 c r2).1 = none ∧
      (tryStart (finish (tryStart s c r).2 c) c r2).1.isSome = true ∧
      (tryStart (guardAbort (tryStart s c r).2 c).2 c r2).1.isSome = true ∧
      (tryStart (fireTimer (tryStart s c r).2 ⟨s.nextId + 1, c, s.nextId⟩).1 c r2).1.isSome
        = true) ∧
    (GuardWF s → (∀ p ∈ s.inFlight, p.2.token ≠ s.nextId) ∧ s.nextId ∉ s.aborted) := by
  refine ⟨?_, ?_, ?_⟩
  · intro hsome
    obtain ⟨e, he⟩ := Option.isSome_iff_exists.mp hsome
    simp [tryStart, he]
  · intro hnone
    obtain ⟨h1, h2⟩ := tryStart_of_none s c r hnone
    set s1 := (tryStart s c r).2 with hs1
    have hsucc : ∀ s2 : GuardState, alookup s2.inFlight c = none →
        (tryStart s2 c r2).1.isSome = true := by
      intro s2 h
      simp [tryStart, h]
    refine ⟨h1, ?_, ?_, ?_, ?_, ?_⟩
    · simp [isInFlight, h2]
    · simp [tryStart, h2]
    · exact hsucc _ (finish_lookup_self _ c)
    · exact hsucc _ (abort_lookup_self _ c)
    · -- the freshly scheduled timer fires, which removes the entry
      have hment : (⟨s.nextId + 1, c, s.nextId⟩ : GuardTimer) ∈ s1.timers := by
        rw [hs1]; simp [tryStart, hnone]
      have hfire :
          alookup (fireTimer s1 ⟨s.nextId + 1, c, s.nextId⟩).1.inFlight c = none := by
        simp [fireTimer, hment, h2, alookup_aerase_self]
      exact hsucc _ hfire
  · intro hwf
    exact ⟨fun p hp h => absurd h (Nat.ne_of_lt (hwf.1 p hp).1),
      fun h => absurd rfl (Nat.ne_of_lt (hwf.2.2 _ h))⟩

/-- C5: abort on a live entry cancels the timer, removes the entry, aborts
the token and returns the captured state; firing the cancelled timer later
does nothing.  With no entry, abort returns null and changes nothing. -/
theorem guard_abort_captures_and_suppresses_timeout (s : GuardState) (c : Int) :
    (∀ e, alookup s.inFlight c = some e →
      (guardAbort s c).1 =
        some { abortController := e.token, replyToMessageId := e.replyToMessageId
               sessionId := e.sessionId } ∧
      alookup (guardAbort s c).2.inFlight c = none ∧
      e.token ∈ (guardAbort s c).2.aborted ∧
      (∀ t : GuardTimer, t.timeoutId = e.timeoutId →
        fireTimer (guardAbort s c).2 t = ((guardAbort s c).2, []))) ∧
    (alookup s.inFlight c = none → guardAbort s c = (none, s)) := by
  constructor
  · intro e he
    refine ⟨by simp [guardAbort, he], abort_lookup_self s c, by simp [guardAbort, he], ?_⟩
    intro t htid
    apply fireTimer_of_not_pending
    intro hmem
    have : t ∈ (clearTimer s e.timeoutId).timers := by
      simpa [guardAbort, he] using hmem
    rw [clearTimer, List.mem_filter] at this
    exact absurd htid (by simpa using this.2)
  · intro hnone
    simp [guardAbort, hnone]

/-- C3: code bug.  The spec says the fired timeout invokes onTimeout with
the payload captured at fire time (reply affinity and the session id last
recorded via setSessionId), and bot.ts destructures that payload in the
callback it registers; but prompt-guard.ts line 63 invokes onTimeout with
no argument.  In the fire-time state below the entry holds reply affinity
200 and session id sess-1, yet the recorded invocation carries no payload. -/
theorem onTimeout_invoked_without_payload :
    alookup demoState.inFlight 1 = some demoEntry ∧
    (fireTimer demoState demoTimer).2 = [{ chatId := 1, arg := none }] ∧
    ∀ call ∈ (fireTimer demoState demoTimer).2,
      call.arg ≠ specOnTimeoutArgument demoEntry := by
  refine ⟨by decide, by decide, by decide⟩

/-- Witness for C1: the live timer of the concrete scenario fires with
exactly one onTimeout invocation. -/
theorem guard_timeout_exactly_once_stale_safe_witness :
    (fireTimer demoState demoTimer).2 = [{ chatId := 1, arg := none }] ∧
    alookup (fireTimer demoState demoTimer).1.inFlight 1 = none :=
  have h := (guard_timeout_exactly_once_stale_safe demoState 1 demoEntry demoTimer none
    rfl (by decide)).1 (by decide) rfl
  ⟨h.1, h.2.1⟩

/-- Witness for C2: on the empty guard, tryStart for chat 1 returns token 0,
a second tryStart returns null, and token 0 is fresh. -/
theorem tryStart_mutual_exclusion_witness :
    (tryStart GuardState.empty 1 (some 200)).1 = some 0 ∧
    (tryStart (tryStart GuardState.empty 1 (some 200)).2 1 none).1 = none ∧
    (0 : Nat) ∉ GuardState.empty.aborted :=
  have h := (tryStart_mutual_exclusion GuardState.empty 1 (some 200) none).2.1 (by decide)
  have hfresh := (tryStart_mutual_exclusion GuardState.empty 1 (some 200) none).2.2
    (by decide)
  ⟨h.1, h.2.2.1, hfresh.2⟩

/-- Witness for C5: aborting the concrete scenario returns the captured
state and the cancelled timer no longer fires. -/
theorem guard_abort_captures_and_suppresses_timeout_witness :
    (guardAbort demoState 1).1 =
      some { abortController := 0, replyToMessageId := some 200
             sessionId := some "sess-1" } ∧
    fireTimer (guardAbort demoState 1).2 demoTimer = ((guardAbort demoState 1).2, []) :=
  have h := (guard_abort_captures_and_suppresses_timeout demoState 1).1 demoEntry
    (by decide)
  ⟨h.1, h.2.2.2 demoTimer rfl⟩

/-- C4: once the prompt timeout has fired — recording exactly one timeout
notification — a later successful resolution of the in-flight backend call
sends nothing further for that inbound message. -/
theorem late_success_after_timeout_dropped
    (chatId : Int) (payload : TimeoutPayload) (outcome : AbortOutcome)
    (t : PromptTask) (rid : Option Nat) (replyText : String) :
    (promptTimeoutCallback chatId payload outcome t).timedOut = true ∧
    (promptTimeoutCallback chatId payload outcome t).sent.length = t.sent.length + 1 ∧
    promptResolveSuccess chatId rid replyText
        (promptTimeoutCallback chatId payload outcome t) =
      promptTimeoutCallback chatId payload outcome t := by
  refine ⟨?_, ?_, ?_⟩ <;>
    cases hs : payload.sessionId <;> cases outcome <;>
      simp [promptTimeoutCallback, promptResolveSuccess, hs]

/-- C6: a question event owned by a conversation that already has an open
pending question is rejected to the backend with the new request id and
dropped; the registry is returned unchanged and the old entry remains
registered. -/
theorem concurrent_question_auto_rejected
    (store : SessionStoreState) (reg : QuestionRegistry) (request : QuestionRequest)
    (directory : String) (sendResult : Option Nat) (owner : SessionOwner)
    (existing : PendingQuestion)
    (hown : storeGetSessionOwner store request.sessionID = some owner)
    (hex : getPendingQuestionForChat reg owner.chatId = some existing) :
    onQuestionAsked store reg request directory sendResult =
      (reg, [BackendCall.rejectQuestion request.id]) ∧
    getPendingQuestionForChat
        (onQuestionAsked store reg request directory sendResult).1 owner.chatId =
      some existing := by
  have h1 : onQuestionAsked store reg request directory sendResult =
      (reg, [BackendCall.rejectQuestion request.id]) := by
    simp [onQuestionAsked, hown, hex]
  exact ⟨h1, by rw [h1]; exact hex⟩

/-- Witness for C6: with chat 1 owning session sess-q and question q-two
open, a q-three event is rejected and the registry is untouched. -/
theorem concurrent_question_auto_rejected_witness :
    onQuestionAsked demoStore demoRegistry demoSecondRequest "/proj" (some 9) =
      (demoRegistry, [BackendCall.rejectQuestion "q-three"]) :=
  (concurrent_question_auto_rejected demoStore demoRegistry demoSecondRequest "/proj"
    (some 9) { chatId := 1, projectDir := "/proj" } demoQuestion
    (by decide) (by decide)).1

theorem collectQuestionAnswers_some_spec (l : List (Option (List String)))
    (ans : List (List String)) (h : collectQuestionAnswers l = some ans) :
    l = ans.map some ∧ ∀ a ∈ ans, a ≠ [] := by
  induction l generalizing ans with
  | nil =>
    simp [collectQuestionAnswers] at h
    subst h
    simp
  | cons x rest ih =>
    cases x with
    | none => simp [collectQuestionAnswers] at h
    | some a =>
      by_cases ha : a.length = 0
      · simp [collectQuestionAnswers, ha] at h
      · rw [collectQuestionAnswers, if_neg ha] at h
        rw [Option.map_eq_some'] at h
        obtain ⟨tail, htail, hans⟩ := h
        obtain ⟨hrest, hne⟩ := ih tail htail
        subst hans
        refine ⟨by rw [hrest]; rfl, ?_⟩
        intro b hb
        rcases List.mem_cons.mp hb with hb | hb
        · subst hb
          intro hnil
          exact ha (by rw [hnil]; rfl)
        · exact hne b hb

theorem collectQuestionAnswers_none_of_gap (l : List (Option (List String)))
    (h : ∃ a ∈ l, a = none ∨ a = some []) : collectQuestionAnswers l = none := by
  induction l with
  | nil => simp at h
  | cons x rest ih =>
    obtain ⟨a, ha, hbad⟩ := h
    rcases List.mem_cons.mp ha with rfl | hmem
    · rcases hbad with rfl | rfl
      · rfl
      · rfl
    · cases x with
      | none => rfl
      | some b =>
        by_cases hb : b.length = 0
        · rw [collectQuestionAnswers, if_pos hb]
        · rw [collectQuestionAnswers, if_neg hb, ih ⟨a, hmem, hbad⟩]
          rfl

theorem deletePendingQuestion_lookup (reg : QuestionRegistry) (p : PendingQuestion) :
    alookup (deletePendingQuestion reg p).pendingQuestions p.request.id = none := by
  unfold deletePendingQuestion
  cases h : alookup reg.pendingQuestionsByChat p.chatId with
  | none => exact alookup_aerase_self _ _
  | some cur =>
    by_cases hc : cur = p.request.id <;> simp [hc, alookup_aerase_self]

/-- C7: advanceQuestionOrSubmit on a non-final sub-question bumps the index
by one and performs no backend call; on the final sub-question it fails
with an error when some answer list is missing or empty, and otherwise
submits the full ordered list of answer lists to the backend exactly once
and destroys the pending entry. -/
theorem advance_or_submit_correct (reg : QuestionRegistry) (pending : PendingQuestion) :
    (pending.currentIndex + 1 < pending.request.questions.length →
      advanceQuestionOrSubmit reg pending =
        .ok ({ reg with
                pendingQuestions := ainsert reg.pendingQuestions pending.request.id
                  { pending with currentIndex := pending.currentIndex + 1 } }, [])) ∧
    (pending.request.questions.length ≤ pending.currentIndex + 1 →
      ((∃ a ∈ pending.answers, a = none ∨ a = some []) →
        advanceQuestionOrSubmit reg pending =
          .error "Missing answers for one or more questions") ∧
      (∀ answers, collectQuestionAnswers pending.answers = some answers →
        advanceQuestionOrSubmit reg pending =
          .ok (deletePendingQuestion reg pending,
            [BackendCall.replyToQuestion pending.request.id answers]) ∧
        alookup (deletePendingQuestion reg pending).pendingQuestions
          pending.request.id = none ∧
        pending.answers = answers.map some ∧ ∀ a ∈ answers, a ≠ [])) := by
  constructor
  · intro hlt
    rw [advanceQuestionOrSubmit, if_pos hlt]
  · intro hge
    have hnlt : ¬pending.currentIndex + 1 < pending.request.questions.length :=
      Nat.not_lt.mpr hge
    constructor
    · intro hgap
      rw [advanceQuestionOrSubmit, if_neg hnlt,
        collectQuestionAnswers_none_of_gap _ hgap]
    · intro answers hcoll
      obtain ⟨hshape, hnonempty⟩ := collectQuestionAnswers_some_spec _ _ hcoll
      refine ⟨?_, deletePendingQuestion_lookup reg pending, hshape, hnonempty⟩
      rw [advanceQuestionOrSubmit, if_neg hnlt, hcoll]

/-- Witness for C7: the concrete two-part question at its last index is
submitted exactly once with both accumulated answer lists in order. -/
theorem advance_or_submit_correct_witness :
    advanceQuestionOrSubmit demoRegistry demoQuestion =
      .ok (deletePendingQuestion demoRegistry demoQuestion,
        [BackendCall.replyToQuestion "q-two" [["B"], ["X"]]]) :=
  (((advance_or_submit_correct demoRegistry demoQuestion).2 (by decide)).2
    [["B"], ["X"]] (by decide)).1

/-! ## Theorems: message splitting -/

theorem chunksLoop_step (limit : Nat) (text : List Char) (h0 : ¬limit = 0)
    (he : ¬text = []) :
    chunksLoop limit text = text.take limit :: chunksLoop limit (text.drop limit) := by
  rw [chunksLoop]
  simp [h0, he]

theorem chunksLoop_nil (limit : Nat) : chunksLoop limit [] = [] := by
  rw [chunksLoop]
  simp

theorem chunksLoop_join (limit : Nat) (h0 : ¬limit = 0) :
    ∀ (n : Nat) (text : List Char), text.length ≤ n →
      (chunksLoop limit text).flatten = text := by
  intro n
  induction n with
  | zero =>
    intro text hlen
    have ht : text = [] := List.eq_nil_of_length_eq_zero (Nat.le_zero.mp hlen)
    subst ht
    rw [chunksLoop_nil]
    rfl
  | succ n ih =>
    intro text hlen
    by_cases he : text = []
    · subst he
      rw [chunksLoop_nil]
      rfl
    · rw [chunksLoop_step limit text h0 he, List.flatten_cons]
      have hpos : 0 < text.length := List.length_pos.mpr he
      have hd : (text.drop limit).length ≤ n := by
        rw [List.length_drop]
        omega
      rw [ih _ hd, List.take_append_drop]

theorem chunksLoop_chunk_sizes (limit : Nat) :
    ∀ (n : Nat) (text : List Char), text.length ≤ n →
      ∀ c ∈ chunksLoop limit text, c.length ≤ limit := by
  intro n
  induction n with
  | zero =>
    intro text hlen c hc
    have ht : text = [] := List.eq_nil_of_length_eq_zero (Nat.le_zero.mp hlen)
    subst ht
    rw [chunksLoop_nil] at hc
    simp at hc
  | succ n ih =>
    intro text hlen c hc
    by_cases h0 : limit = 0
    · rw [chunksLoop] at hc
      simp [h0] at hc
    · by_cases he : text = []
      · subst he
        rw [chunksLoop_nil] at hc
        simp at hc
      · rw [chunksLoop_step limit text h0 he] at hc
        rcases List.mem_cons.mp hc with rfl | hc
        · rw [List.length_take]
          exact Nat.min_le_left _ _
        · have hpos : 0 < text.length := List.length_pos.mpr he
          have hd : (text.drop limit).length ≤ n := by
            rw [List.length_drop]
            omega
          exact ih _ hd c hc

theorem chunksLoop_count (limit : Nat) (h0 : ¬limit = 0) :
    ∀ (n : Nat) (text : List Char), text.length ≤ n → text ≠ [] →
      (chunksLoop limit text).length = (text.length - 1) / limit + 1 := by
  intro n
  induction n with
  | zero =>
    intro text hlen he
    exact absurd (List.eq_nil_of_length_eq_zero (Nat.le_zero.mp hlen)) he
  | succ n ih =>
    intro text hlen he
    rw [chunksLoop_step limit text h0 he, List.length_cons]
    have hpos : 0 < text.length := List.length_pos.mpr he
    by_cases hsmall : text.length ≤ limit
    · have hd : text.drop limit = [] := List.drop_eq_nil_of_le hsmall
      rw [hd, chunksLoop_nil]
      have : (text.length - 1) / limit = 0 := Nat.div_eq_of_lt (by omega)
      simp [this]
    · have hbig : limit < text.length := Nat.not_le.mp hsmall
      have hdne : text.drop limit ≠ [] := by
        intro h
        have := congrArg List.length h
        rw [List.length_drop] at this
        simp at this
        omega
      have hd : (text.drop limit).length ≤ n := by
        rw [List.length_drop]
        omega
      rw [ih _ hd hdne, List.length_drop]
      have hsplit : text.length - 1 = (text.length - limit - 1) + limit := by omega
      have hlim : 0 < limit := Nat.pos_of_ne_zero h0
      rw [hsplit, Nat.add_div_right _ hlim]

/-- C8 counterexample: on the empty string with limit 1 the source returns
one (empty) chunk while the claimed chunk count, the ceiling of 0 divided
by 1, is zero. -/
theorem splitTelegramMessage_empty_text_extra_chunk :
    splitTelegramMessage [] 1 = [[]] ∧
    (splitTelegramMessage [] 1).length = 1 ∧
    (List.length ([] : List Char) + 1 - 1) / 1 = 0 ∧
    (splitTelegramMessage [] 1).length ≠ (List.length ([] : List Char) + 1 - 1) / 1 := by
  refine ⟨rfl, rfl, rfl, by decide⟩

/-- C8 amended: for limit at least 1, the chunks concatenate back to the
original string and each is at most limit long; for nonempty text the chunk
count is the ceiling of length over limit (so length equal to limit gives
exactly one chunk), while the empty string yields one empty chunk rather
than zero chunks. -/
theorem splitTelegramMessage_chunking (text : List Char) (limit : Nat)
    (hl : 1 ≤ limit) :
    (splitTelegramMessage text limit).flatten = text ∧
    (∀ c ∈ splitTelegramMessage text limit, c.length ≤ limit) ∧
    (text ≠ [] →
      (splitTelegramMessage text limit).length = (text.length + limit - 1) / limit) ∧
    (text.length = limit → splitTelegramMessage text limit = [text]) ∧
    splitTelegramMessage [] limit = [[]] := by
  have h0 : ¬limit = 0 := by omega
  have hceil : text ≠ [] →
      (text.length + limit - 1) / limit = (text.length - 1) / limit + 1 := by
    intro he
    have hpos : 0 < text.length := List.length_pos.mpr he
    have hsplit : text.length + limit - 1 = (text.length - 1) + limit := by omega
    rw [hsplit, Nat.add_div_right _ (Nat.pos_of_ne_zero h0)]
  unfold splitTelegramMessage
  by_cases hle : text.length ≤ limit
  · rw [if_pos hle]
    refine ⟨by simp, ?_, ?_, fun _ => rfl, by simp⟩
    · intro c hc
      rcases List.mem_singleton.mp hc with rfl
      exact hle
    · intro he
      rw [hceil he]
      have hpos : 0 < text.length := List.length_pos.mpr he
      have : (text.length - 1) / limit = 0 := Nat.div_eq_of_lt (by omega)
      simp [this]
  · rw [if_neg hle]
    have he : text ≠ [] := by
      intro h
      subst h
      simp at hle
    refine ⟨chunksLoop_join limit h0 text.length text le_rfl, ?_, ?_, ?_, by simp⟩
    · exact chunksLoop_chunk_sizes limit text.length text le_rfl
    · intro _
      rw [hceil he]
      exact chunksLoop_count limit h0 text.length text le_rfl he
    · intro hlen
      exact absurd (le_of_eq hlen) hle

/-- Witness for the amended C8: three characters with limit 2 concatenate
back and produce the ceiling count. -/
theorem splitTelegramMessage_chunking_witness :
    (splitTelegramMessage ['a', 'b', 'c'] 2).flatten = ['a', 'b', 'c'] ∧
    (splitTelegramMessage ['a', 'b', 'c'] 2).length =
      (List.length ['a', 'b', 'c'] + 2 - 1) / 2 :=
  have h := splitTelegramMessage_chunking ['a', 'b', 'c'] 2 (by decide)
  ⟨h.1, h.2.2.1 (by decide)⟩

/-! ## Theorems: session ownership store -/

theorem storeSetSessionId_eq (st : SessionStoreState) (c : Int) (p sid : String) :
    storeSetSessionId st c p sid =
      { sessions := ainsert st.sessions (c, p) sid
        owners := ainsert
          (match alookup st.sessions (c, p) with
            | some existing =>
              if existing ≠ sid then aerase st.owners existing else st.owners
            | none => st.owners)
          sid { chatId := c, projectDir := p } } := rfl

theorem storeConsistent_empty : StoreConsistent SessionStoreState.empty := by
  constructor <;> intro a b cc h <;> simp [SessionStoreState.empty, alookup] at h

theorem storeConsistent_injective (st : SessionStoreState) (hcons : StoreConsistent st)
    (c c2 : Int) (p p2 sid2 : String)
    (hA : alookup st.sessions (c, p) = some sid2)
    (hB : alookup st.sessions (c2, p2) = some sid2) : c = c2 ∧ p = p2 := by
  have h1 := hcons.1 c p sid2 hA
  have h2 := hcons.1 c2 p2 sid2 hB
  rw [h1] at h2
  injection h2 with h2
  simp only [SessionOwner.mk.injEq] at h2
  exact h2

theorem storeSetSessionId_preserves (st : SessionStoreState) (c : Int) (p sid : String)
    (hcons : StoreConsistent st)
    (hfresh : ∀ c2 p2, ¬(c2 = c ∧ p2 = p) →
      alookup st.sessions (c2, p2) ≠ some sid) :
    StoreConsistent (storeSetSessionId st c p sid) := by
  obtain ⟨h1, h2⟩ := hcons
  rw [storeSetSessionId_eq]
  constructor
  · intro c2 p2 sid2 hs2
    by_cases hk : ((c2 : Int), p2) = ((c : Int), p)
    · have hc2 : c2 = c := congrArg Prod.fst hk
      have hp2 : p2 = p := congrArg Prod.snd hk
      subst hc2
      subst hp2
      rw [alookup_ainsert_self] at hs2
      injection hs2 with hs2
      subst hs2
      exact alookup_ainsert_self _ _ _
    · rw [alookup_ainsert_ne _ _ _ _ (Ne.symm hk)] at hs2
      have hsidne : sid2 ≠ sid := by
        intro hEq
        subst hEq
        exact hfresh c2 p2 (fun hand => hk (by rw [hand.1, hand.2])) hs2
      rw [alookup_ainsert_ne _ _ _ _ (Ne.symm hsidne)]
      cases halook : alookup st.sessions ((c : Int), p) with
      | none =>
        simp only [halook]
        exact h1 c2 p2 sid2 hs2
      | some old =>
        simp only [halook]
        by_cases holdsid : old ≠ sid
        · rw [if_pos holdsid]
          have holdne : old ≠ sid2 := by
            intro hEq
            subst hEq
            obtain ⟨hc, hp⟩ := storeConsistent_injective st ⟨h1, h2⟩ c c2 p p2 old
              halook hs2
            exact hk (by rw [hc, hp])
          rw [alookup_aerase_ne _ _ _ holdne]
          exact h1 c2 p2 sid2 hs2
        · rw [if_neg holdsid]
          exact h1 c2 p2 sid2 hs2
  · intro sid2 c2 p2 ho2
    by_cases hs : sid2 = sid
    · subst hs
      rw [alookup_ainsert_self] at ho2
      injection ho2 with ho2
      have hc2 : c = c2 := congrArg SessionOwner.chatId ho2
      have hp2 : p = p2 := congrArg SessionOwner.projectDir ho2
      subst hc2
      subst hp2
      exact alookup_ainsert_self _ _ _
    · rw [alookup_ainsert_ne _ _ _ _ (Ne.symm hs)] at ho2
      cases halook : alookup st.sessions ((c : Int), p) with
      | none =>
        simp only [halook] at ho2
        have hsess := h2 sid2 c2 p2 ho2
        have hkne : ((c : Int), p) ≠ ((c2 : Int), p2) := by
          intro hEq
          rw [← hEq] at hsess
          rw [halook] at hsess
          exact Option.noConfusion hsess
        rw [alookup_ainsert_ne _ _ _ _ hkne]
        exact hsess
      | some old =>
        simp only [halook] at ho2
        by_cases holdsid : old ≠ sid
        · rw [if_pos holdsid] at ho2
          have hne2 : old ≠ sid2 := by
            intro hEq
            subst hEq
            rw [alookup_aerase_self] at ho2
            exact Option.noConfusion ho2
          rw [alookup_aerase_ne _ _ _ hne2] at ho2
          have hsess := h2 sid2 c2 p2 ho2
          have hkne : ((c : Int), p) ≠ ((c2 : Int), p2) := by
            intro hEq
            rw [← hEq] at hsess
            rw [halook] at hsess
            injection hsess with hsess
            exact hne2 hsess
          rw [alookup_ainsert_ne _ _ _ _ hkne]
          exact hsess
        · rw [if_neg holdsid] at ho2
          have hold : old = sid := Decidable.not_not.mp holdsid
          subst hold
          have hsess := h2 sid2 c2 p2 ho2
          have hkne : ((c : Int), p) ≠ ((c2 : Int), p2) := by
            intro hEq
            rw [← hEq] at hsess
            rw [halook] at hsess
            injection hsess with hsess
            exact hs hsess.symm
          rw [alookup_ainsert_ne _ _ _ _ hkne]
          exact hsess

theorem storeClearSession_preserves (st : SessionStoreState) (c : Int) (p : String)
    (hcons : StoreConsistent st) :
    StoreConsistent (storeClearSession st c p).2 := by
  obtain ⟨h1, h2⟩ := hcons
  constructor
  · intro c2 p2 sid2 hs2
    simp only [storeClearSession] at hs2 ⊢
    have hkne : ((c2 : Int), p2) ≠ ((c : Int), p) := by
      intro hEq
      rw [hEq] at hs2
      rw [alookup_aerase_self] at hs2
      exact Option.noConfusion hs2
    rw [alookup_aerase_ne _ _ _ (Ne.symm hkne)] at hs2
    have hown := h1 c2 p2 sid2 hs2
    cases halook : alookup st.sessions ((c : Int), p) with
    | none =>
      simp only [halook]
      exact hown
    | some old =>
      simp only [halook]
      have holdne : old ≠ sid2 := by
        intro hEq
        subst hEq
        obtain ⟨hc, hp⟩ := storeConsistent_injective st ⟨h1, h2⟩ c c2 p p2 old
          halook hs2
        exact hkne (by rw [hc, hp])
      rw [alookup_aerase_ne _ _ _ holdne]
      exact hown
  · intro sid2 c2 p2 ho2
    simp only [storeClearSession] at ho2 ⊢
    cases halook : alookup st.sessions ((c : Int), p) with
    | none =>
      simp only [halook] at ho2
      have hsess := h2 sid2 c2 p2 ho2
      have hkne : ((c : Int), p) ≠ ((c2 : Int), p2) := by
        intro hEq
        rw [← hEq] at hsess
        rw [halook] at hsess
        exact Option.noConfusion hsess
      rw [alookup_aerase_ne _ _ _ hkne]
      exact hsess
    | some old =>
      simp only [halook] at ho2
      have hne2 : old ≠ sid2 := by
        intro hEq
        subst hEq
        rw [alookup_aerase_self] at ho2
        exact Option.noConfusion ho2
      rw [alookup_aerase_ne _ _ _ hne2] at ho2
      have hsess := h2 sid2 c2 p2 ho2
      have hkne : ((c : Int), p) ≠ ((c2 : Int), p2) := by
        intro hEq
        rw [← hEq] at hsess
        rw [halook] at hsess
        injection hsess with hsess
        exact hne2 hsess
      rw [alookup_aerase_ne _ _ _ hkne]
      exact hsess

/-- C9 counterexample: setting session id s for conversation 1 at /a and
then for conversation 2 at /b leaves both forward entries pointing at s,
so the session-to-conversation+project association is not one-to-one; the
reverse map keeps only the later owner. -/
theorem session_store_forward_map_not_injective :
    storeGetSessionId clashStore 1 "/a" = some "s" ∧
    storeGetSessionId clashStore 2 "/b" = some "s" ∧
    storeGetSessionOwner clashStore "s" = some { chatId := 2, projectDir := "/b" } ∧
    ¬(((1 : Int), "/a") = ((2 : Int), "/b")) := by
  refine ⟨by decide, by decide, by decide, by decide⟩

/-- C9 amended: setting a new session id for a conversation+project evicts
the old session id of the pair from the reverse map, and both maps stay mutually
inverse — hence one-to-one in each direction — for every run in which no
session id is set for two different conversation+project pairs (as when ids
come from fresh backend sessions); the code does not evict the forward
entry of a DIFFERENT pair that already held the same session id, which is
what the counterexample exploits. -/
theorem session_store_one_to_one_amended (st : SessionStoreState) (c : Int)
    (p sid : String) :
    (∀ old, storeGetSessionId st c p = some old → old ≠ sid →
      storeGetSessionOwner (storeSetSessionId st c p sid) old = none) ∧
    (StoreConsistent st →
      (∀ c2 p2, ¬(c2 = c ∧ p2 = p) → storeGetSessionId st c2 p2 ≠ some sid) →
      StoreConsistent (storeSetSessionId st c p sid)) ∧
    (StoreConsistent st → StoreConsistent (storeClearSession st c p).2) ∧
    StoreConsistent (storeClearAll st) ∧
    (StoreConsistent st → ∀ c2 p2 sid2,
      storeGetSessionId st c p = some sid2 → storeGetSessionId st c2 p2 = some sid2 →
      c = c2 ∧ p = p2) := by
  refine ⟨?_, ?_, storeClearSession_preserves st c p, storeConsistent_empty, ?_⟩
  · intro old hold hne
    rw [storeGetSessionOwner, storeSetSessionId_eq]
    simp only [storeGetSessionId] at hold
    simp only [hold, if_pos hne]
    rw [alookup_ainsert_ne _ _ _ _ (Ne.symm hne)]
    exact alookup_aerase_self _ _
  · intro hcons hfresh
    exact storeSetSessionId_preserves st c p sid hcons
      (fun c2 p2 h => hfresh c2 p2 h)
  · intro hcons c2 p2 sid2 hA hB
    exact storeConsistent_injective st hcons c c2 p p2 sid2 hA hB

/-- Witness for the amended C9: replacing the session id of conversation 1
at /a evicts the old id from the reverse map. -/
theorem session_store_one_to_one_amended_witness :
    storeGetSessionOwner
      (storeSetSessionId (storeSetSessionId SessionStoreState.empty 1 "/a" "s1")
        1 "/a" "s2") "s1" = none :=
  (session_store_one_to_one_amended
    (storeSetSessionId SessionStoreState.empty 1 "/a" "s1") 1 "/a" "s2").1
    "s1" (by decide) (by decide)

/-! ## Theorems: authorization guard -/

/-- C10 counterexample: an unauthorized callback whose data is recognized
as neither a permission nor a question callback is dropped silently — the
handler emits no Not authorized notice at all, against the claim that every
unauthorized update is answered with one. -/
theorem unauthorized_unrecognized_callback_silent :
    callbackDispatch (some "hello".toList) false [Effect.reply "ok"] = [] ∧
    ¬(Effect.answerCbQuery "Not authorized." ∈
        callbackDispatch (some "hello".toList) false [Effect.reply "ok"]) ∧
    ¬(Effect.reply "Not authorized." ∈
        callbackDispatch (some "hello".toList) false [Effect.reply "ok"]) := by
  refine ⟨by decide, by decide, by decide⟩

/-- C10 amended: an update from an unauthorized sender has no effect on the
Guard, the registries, the stores, or the backend: every message and
command handler replies exactly Not authorized, and the callback handler
answers the callback with Not authorized when its data parses as a
permission or question callback, while a callback with unrecognized or
absent data is dropped silently before the authorization check. -/
theorem unauthorized_update_only_notice (rest : List Effect) (data : List Char) :
    authGuarded false rest = [Effect.reply "Not authorized."] ∧
    (∀ e ∈ authGuarded false rest, stateTouching e = false) ∧
    (callbackDispatch (some data) false rest = [] ∨
      callbackDispatch (some data) false rest =
        [Effect.answerCbQuery "Not authorized."]) ∧
    (∀ e ∈ callbackDispatch (some data) false rest, stateTouching e = false) ∧
    callbackDispatch none false rest = [] := by
  have hchar : callbackDispatch (some data) false rest =
      if ((parsePermissionCallback data).isNone &&
          (if (parsePermissionCallback data).isSome then (none : Option QuestionCallback)
            else parseQuestionCallback data).isNone) = true
      then []
      else [Effect.answerCbQuery "Not authorized."] := rfl
  refine ⟨rfl, ?_, ?_, ?_, rfl⟩
  · intro e he
    rcases List.mem_singleton.mp he with rfl
    rfl
  · rw [hchar]
    by_cases hb : ((parsePermissionCallback data).isNone &&
        (if (parsePermissionCallback data).isSome then (none : Option QuestionCallback)
          else parseQuestionCallback data).isNone) = true
    · rw [if_pos hb]
      exact Or.inl rfl
    · rw [if_neg hb]
      exact Or.inr rfl
  · intro e he
    rw [hchar] at he
    by_cases hb : ((parsePermissionCallback data).isNone &&
        (if (parsePermissionCallback data).isSome then (none : Option QuestionCallback)
          else parseQuestionCallback data).isNone) = true
    · rw [if_pos hb] at he
      simp at he
    · rw [if_neg hb] at he
      rcases List.mem_singleton.mp he with rfl
      rfl

end Bridge
